import Mathlib

/-!
Verification development for the Student Emotion Recorder sketch
(`Mental_Health_Recoder.ino`). The definitions below are a shallow
embedding of the input-decoding and interaction state machine of the
sketch: the quadrature decoder ISR `updateEncoder`, the debounced
button poll `isButtonPressed`, the selection/state data and one
iteration of `loop()`. C `int` values are modelled as `Int` (the C
`%` on `int` is truncated division, `Int.tmod`); `unsigned long`
millisecond timestamps are modelled as `Nat` with 32-bit wraparound
subtraction. Display and network calls are modelled as observable
effect records; their pixel/transport behaviour is out of scope.
-/

namespace MentalHealthRecoder

/-- The `DeviceState` enum of the sketch (lines 103-110). -/
inductive DeviceState where
  | STATE_NAME_SELECTION
  | STATE_CLASS_SELECTION
  | STATE_MOOD_SELECTION
  | STATE_SUBMISSION
  | STATE_CONFIRMATION
deriving DecidableEq, Repr

/-- The `names` menu array (line 113). -/
def names : List String := ["Tan Jetyu", "Nur Qalisha", "Shum Jia Xiang", "Evelyn"]

/-- `numNames = sizeof(names)/sizeof(names[0])` (line 114). -/
def numNames : Int := (names.length : Int)

/-- The `classes` menu array (line 115). -/
def classes : List String := ["Class 3", "Class 4", "Class 5"]

/-- `numClasses` (line 116). -/
def numClasses : Int := (classes.length : Int)

/-- The `moods` menu array (line 117). -/
def moods : List String := ["Happy", "Neutral", "Sad", "Angry", "Excited"]

/-- `numMoods` (line 118). -/
def numMoods : Int := (moods.length : Int)

/-- The `moodMessages` array (lines 119-125), index-aligned with `moods`. -/
def moodMessages : List String :=
  ["yes! Please stay happy !",
   "awh Why ? Try to find something you like to do today !",
   "Well, Its okay to be sad. Try to reach out to people you trust.",
   "Okay! Cool cool! Take a deep breath!",
   "Wow! I\u0027m glad! Try to share your happiness with your friends!"]

/-- The shared state of the quadrature decoder ISR:
`volatile int encoderPos` and `volatile int lastEncoded`
(lines 133-134). `lastEncoded` holds a 2-bit sample. -/
structure EncoderState where
  encoderPos : Int
  lastEncoded : Nat
deriving DecidableEq, Repr

/-- `(MSB << 1) | LSB` (line 269): combine the two signal levels into
a 2-bit sample. -/
def encode (a b : Bool) : Nat := (cond a 2 0) + (cond b 1 0)

/-- The four forward Gray-code transition codes of line 271:
`0b1101, 0b0100, 0b0010, 0b1011`. -/
def isForwardCode (sum : Nat) : Bool :=
  sum = 13 || sum = 4 || sum = 2 || sum = 11

/-- The four backward Gray-code transition codes of line 273:
`0b1110, 0b0111, 0b0001, 0b1000`. -/
def isBackwardCode (sum : Nat) : Bool :=
  sum = 14 || sum = 7 || sum = 1 || sum = 8

/-- One invocation of the ISR `updateEncoder()` (lines 266-276) on the
sampled signal levels `a` (pin A / MSB) and `b` (pin B / LSB):
`sum = (lastEncoded << 2) | encoded`; a forward code increments
`encoderPos`, a backward code decrements it, anything else leaves it
unchanged; `lastEncoded` always becomes the new sample. -/
def updateEncoder (s : EncoderState) (a b : Bool) : EncoderState :=
  let encoded := encode a b
  let sum := s.lastEncoded * 4 + encoded
  { encoderPos :=
      if isForwardCode sum then s.encoderPos + 1
      else if isBackwardCode sum then s.encoderPos - 1
      else s.encoderPos,
    lastEncoded := encoded }

/-- Repeated ISR invocations on a sequence of (A, B) samples. -/
def runEncoder (s : EncoderState) : List (Bool × Bool) → EncoderState
  | [] => s
  | (a, b) :: rest => runEncoder (updateEncoder s a b) rest

/-- The sequence of 4-bit transition codes produced while processing a
sample sequence, starting from the 2-bit sample `last`. -/
def transitionCodes (last : Nat) : List (Bool × Bool) → List Nat
  | [] => []
  | (a, b) :: rest => (last * 4 + encode a b) :: transitionCodes (encode a b) rest

/-- 32-bit wraparound difference `a - b` on `unsigned long` millisecond
counters, as computed by the C expressions
`currentMillis - lastButtonPressTime` and `millis() - confirmStart`. -/
def u32sub (a b : Nat) : Nat := (a % 2 ^ 32 + 2 ^ 32 - b % 2 ^ 32) % 2 ^ 32

/-- `isButtonPressed()` (lines 281-290). Input: the raw pin level
(`rawLow` is true when `digitalRead(BUTTON_PIN) == LOW`, i.e. pressed)
and `millis()`; state: `lastButtonPressTime`. Returns the press event
flag and the updated `lastButtonPressTime`. -/
def isButtonPressed (rawLow : Bool) (now last : Nat) : Bool × Nat :=
  if rawLow then
    if u32sub now last > 200 then (true, now) else (false, last)
  else (false, last)

/-- The selection-update expression of lines 493, 496 and 499:
`(current + pos + listLength) % listLength` in C `int` arithmetic,
whose `%` is truncated division (`Int.tmod`). -/
def updateSelection (current delta listLength : Int) : Int :=
  Int.tmod (current + delta + listLength) listLength

/-- The full mutable state read and written by one `loop()` iteration
(lines 110, 128-143): the FSM state, the three selection indices, the
ISR-shared encoder cell, the debounce timestamp and the LCD
change-detection snapshot. `prevState` is `Option DeviceState`, with
`none` standing for the `(DeviceState)-1` sentinel. -/
structure LoopState where
  currentState : DeviceState
  selectedNameIndex : Int
  selectedClassIndex : Int
  selectedMoodIndex : Int
  encoderPos : Int
  lastEncoded : Nat
  lastButtonPressTime : Nat
  prevState : Option DeviceState
  prevNameIndex : Int
  prevClassIndex : Int
  prevMoodIndex : Int
deriving DecidableEq, Repr

/-- Accumulate a sequence of ISR samples into the encoder cell of the
loop state (the ISR may preempt the main loop at any point; only
`encoderPos` and `lastEncoded` are touched from interrupt context). -/
def applySamples (s : LoopState) (xs : List (Bool × Bool)) : LoopState :=
  let e := runEncoder { encoderPos := s.encoderPos, lastEncoded := s.lastEncoded } xs
  { s with encoderPos := e.encoderPos, lastEncoded := e.lastEncoded }

/-- The rotation switch of lines 490-504: when the drained delta `pos`
is nonzero, the index of the selection being edited is updated with
the wraparound expression; in `STATE_SUBMISSION` and
`STATE_CONFIRMATION` the `default` arm leaves everything unchanged. -/
def rotationStep (pos : Int) (s : LoopState) : LoopState :=
  if pos ≠ 0 then
    match s.currentState with
    | DeviceState.STATE_NAME_SELECTION =>
        { s with selectedNameIndex := updateSelection s.selectedNameIndex pos numNames }
    | DeviceState.STATE_CLASS_SELECTION =>
        { s with selectedClassIndex := updateSelection s.selectedClassIndex pos numClasses }
    | DeviceState.STATE_MOOD_SELECTION =>
        { s with selectedMoodIndex := updateSelection s.selectedMoodIndex pos numMoods }
    | _ => s
  else s

/-- The state transition of the button switch of lines 506-521, on the
FSM state alone: name → class → mood → submission, and the `default`
arm keeps the state. -/
def pressTarget : DeviceState → DeviceState
  | DeviceState.STATE_NAME_SELECTION => DeviceState.STATE_CLASS_SELECTION
  | DeviceState.STATE_CLASS_SELECTION => DeviceState.STATE_MOOD_SELECTION
  | DeviceState.STATE_MOOD_SELECTION => DeviceState.STATE_SUBMISSION
  | st => st

/-- The button switch of lines 506-521 applied to the loop state. -/
def pressStep (s : LoopState) : LoopState :=
  { s with currentState := pressTarget s.currentState }

/-- The LCD change-detection condition of lines 523-526. -/
def lcdNeedsRedraw (s : LoopState) : Bool :=
  decide (s.prevState ≠ some s.currentState) ||
  (decide (s.currentState = DeviceState.STATE_NAME_SELECTION) &&
    decide (s.selectedNameIndex ≠ s.prevNameIndex)) ||
  (decide (s.currentState = DeviceState.STATE_CLASS_SELECTION) &&
    decide (s.selectedClassIndex ≠ s.prevClassIndex)) ||
  (decide (s.currentState = DeviceState.STATE_MOOD_SELECTION) &&
    decide (s.selectedMoodIndex ≠ s.prevMoodIndex))

/-- The screen contents drawn by `displayMenu()` (lines 309-340). -/
inductive LcdView where
  | nameMenu (label : String)
  | classMenu (label : String)
  | moodMenu (label : String)
  | confirmationScreen
  | blank
deriving DecidableEq, Repr

/-- `displayMenu()` (lines 309-340): renders the menu line for the
selection being edited, the fixed confirmation screen in
`STATE_CONFIRMATION`, and only clears the LCD in the `default` arm
(hit by `STATE_SUBMISSION`). Out-of-range C array reads are modelled
with `List.getD` and an empty default. -/
def displayMenu (s : LoopState) : LcdView :=
  match s.currentState with
  | DeviceState.STATE_NAME_SELECTION =>
      LcdView.nameMenu (names.getD s.selectedNameIndex.toNat "")
  | DeviceState.STATE_CLASS_SELECTION =>
      LcdView.classMenu (classes.getD s.selectedClassIndex.toNat "")
  | DeviceState.STATE_MOOD_SELECTION =>
      LcdView.moodMenu (moods.getD s.selectedMoodIndex.toNat "")
  | DeviceState.STATE_CONFIRMATION => LcdView.confirmationScreen
  | DeviceState.STATE_SUBMISSION => LcdView.blank

/-- The OLED drawing performed by one call of `updateOLED()`
(lines 346-369). -/
inductive OledAction where
  | roboEyesUpdate
  | moodIcon (idx : Int)
  | confirmMessage (msg : String)
  | idleText
deriving DecidableEq, Repr

/-- `updateOLED()` (lines 346-369): idle animation in the name and
class states, the mood emoticon in the mood state, the mood-specific
message in the confirmation state, and the "Idle" placeholder in the
`default` arm (hit by `STATE_SUBMISSION`). The function reads only
`currentState` and `selectedMoodIndex` and draws unconditionally. -/
def updateOLEDAction (st : DeviceState) (moodIdx : Int) : OledAction :=
  match st with
  | DeviceState.STATE_NAME_SELECTION => OledAction.roboEyesUpdate
  | DeviceState.STATE_CLASS_SELECTION => OledAction.roboEyesUpdate
  | DeviceState.STATE_MOOD_SELECTION => OledAction.moodIcon moodIdx
  | DeviceState.STATE_CONFIRMATION =>
      OledAction.confirmMessage (moodMessages.getD moodIdx.toNat "")
  | DeviceState.STATE_SUBMISSION => OledAction.idleText

/-- The Telegram message built at lines 538-541:
`"Name: " + names[i] + "\nClass: " + classes[j] + "\nMood: " + moods[k] + "\nDate: " + dateStr`. -/
def submissionMessage (i j k : Int) (dateStr : String) : String :=
  "Name: " ++ names.getD i.toNat "" ++ "\nClass: " ++ classes.getD j.toNat "" ++
  "\nMood: " ++ moods.getD k.toNat "" ++ "\nDate: " ++ dateStr

/-- Refinement target for the Submission Pipeline, written from the
spec's words rather than the source: a fixed-layout four-line message
"Name: …", "Class: …", "Mood: …", "Date: …", each label resolved from
the corresponding option list at the given index, the lines joined by
newlines in that order. -/
def specSubmissionMessage (i j k : Int) (dateStr : String) : String :=
  String.intercalate "\n"
    ["Name: " ++ names.getD i.toNat "",
     "Class: " ++ classes.getD j.toNat "",
     "Mood: " ++ moods.getD k.toNat "",
     "Date: " ++ dateStr]

/-- The confirmation dwell loop of lines 548-552:
`while (millis() - confirmStart < 3000)`. Given the successive
`millis()` readings taken by the loop condition, returns the first
reading at which the loop exits, or `none` when the supplied readings
never reach the deadline. -/
def dwellWait (confirmStart : Nat) : List Nat → Option Nat
  | [] => none
  | t :: ts => if u32sub t confirmStart < 3000 then dwellWait confirmStart ts else some t

/-- The inputs consumed by one `loop()` iteration: the ISR samples
delivered before the drain of lines 485-488, the raw button level and
`millis()` reading of the `isButtonPressed()` call, the ISR samples
delivered after the drain (during the rest of the iteration, dwell
included), and for the submission branch the formatted date, the
`millis()` reading taken at line 548 and the readings taken by the
dwell loop condition. -/
structure TickInput where
  encBefore : List (Bool × Bool)
  buttonLow : Bool
  pollMillis : Nat
  encAfterDrain : List (Bool × Bool)
  dateStr : String
  confirmStartMillis : Nat
  dwellMillis : List Nat
deriving DecidableEq, Repr

/-- The externally observable actions of one `loop()` iteration: LCD
draws (`displayMenu()` calls), OLED draws (`updateOLED()` calls) and
the Telegram message handed to `sendTelegramMessage()`, if any. -/
structure TickEffects where
  lcdDraws : List LcdView
  oledDraws : List OledAction
  telegramSent : Option String
deriving DecidableEq, Repr

/-- Lines 482-534 of `loop()`: accumulate the pending ISR samples,
drain `encoderPos` atomically (read then reset, interrupts masked),
apply the rotation switch, poll the debounced button and apply the
button switch, run the LCD change detection (updating the snapshot on
a redraw) and call `updateOLED()` unconditionally. -/
def loopTickCore (s : LoopState) (inp : TickInput) : LoopState × TickEffects :=
  let sIsr := applySamples s inp.encBefore
  let pos := sIsr.encoderPos
  let s0 := { sIsr with encoderPos := 0 }
  let s1 := rotationStep pos s0
  let pr := isButtonPressed inp.buttonLow inp.pollMillis s1.lastButtonPressTime
  let s2 := { s1 with lastButtonPressTime := pr.2 }
  let s3 := if pr.1 then pressStep s2 else s2
  let redraw := lcdNeedsRedraw s3
  let s4 :=
    if redraw then
      { s3 with prevState := some s3.currentState,
                prevNameIndex := s3.selectedNameIndex,
                prevClassIndex := s3.selectedClassIndex,
                prevMoodIndex := s3.selectedMoodIndex }
    else s3
  (s4,
   { lcdDraws := if redraw then [displayMenu s3] else [],
     oledDraws := [updateOLEDAction s3.currentState s3.selectedMoodIndex],
     telegramSent := none })

/-- One full `loop()` iteration (lines 482-561). After the core part,
a state of `STATE_SUBMISSION` triggers the submission block of lines
536-560: build and send the message, switch to `STATE_CONFIRMATION`
and render it, busy-wait for the 3000 ms dwell while re-running
`updateOLED()`, then reset the three indices to 0, the state to
`STATE_NAME_SELECTION` and the snapshot state to the sentinel. ISR
samples delivered after the drain accumulate into `encoderPos` in
either branch; the reset does not clear `encoderPos`. Returns `none`
when the supplied dwell readings never reach the deadline (the loop
would not have finished). -/
def loopTick (s : LoopState) (inp : TickInput) : Option (LoopState × TickEffects) :=
  let r := loopTickCore s inp
  let m := r.1
  if m.currentState = DeviceState.STATE_SUBMISSION then
    let msg := submissionMessage m.selectedNameIndex m.selectedClassIndex
      m.selectedMoodIndex inp.dateStr
    let mConf := { m with currentState := DeviceState.STATE_CONFIRMATION }
    match dwellWait inp.confirmStartMillis inp.dwellMillis with
    | none => none
    | some _ =>
        let dwellDraws :=
          (inp.dwellMillis.takeWhile (fun t => u32sub t inp.confirmStartMillis < 3000)).map
            (fun _ => updateOLEDAction mConf.currentState mConf.selectedMoodIndex)
        let mD := applySamples mConf inp.encAfterDrain
        some ({ mD with selectedNameIndex := 0,
                        selectedClassIndex := 0,
                        selectedMoodIndex := 0,
                        currentState := DeviceState.STATE_NAME_SELECTION,
                        prevState := none },
              { lcdDraws := r.2.lcdDraws ++ [displayMenu mConf],
                oledDraws := r.2.oledDraws ++ dwellDraws,
                telegramSent := some msg })
  else
    some (applySamples m inp.encAfterDrain, r.2)

/-- The state at the first entry of `loop()`: the initial values of
lines 110, 128-143 as re-established at the end of `setup()`
(lines 474-477). -/
def initState : LoopState :=
  { currentState := DeviceState.STATE_NAME_SELECTION,
    selectedNameIndex := 0, selectedClassIndex := 0, selectedMoodIndex := 0,
    encoderPos := 0, lastEncoded := 0, lastButtonPressTime := 0,
    prevState := none, prevNameIndex := -1, prevClassIndex := -1, prevMoodIndex := -1 }

/-- Run a sequence of `loop()` iterations. -/
def runTicks (s : LoopState) : List TickInput → Option LoopState
  | [] => some s
  | inp :: rest =>
      match loopTick s inp with
      | none => none
      | some r => runTicks r.1 rest

/-- Whether `setup()` (lines 432-480) reaches the interaction loop, as
a function of the startup configuration. Modelled faithfully from the
source: the only path that refuses to proceed is the OLED allocation
failure of lines 442-445 (`for (;;);`); the body never inspects the
lengths of `moods` or `moodMessages`, so the outcome does not depend
on them. -/
def setupProceeds (oledOk : Bool) (numMoodsArg numMoodMessagesArg : Nat) : Bool :=
  oledOk

/-- The three menu-editing phases of the FSM. -/
def isSelectingPhase : DeviceState → Bool
  | DeviceState.STATE_NAME_SELECTION => true
  | DeviceState.STATE_CLASS_SELECTION => true
  | DeviceState.STATE_MOOD_SELECTION => true
  | _ => false

/-- The eight valid transition codes are disjoint: a forward code is
never also a backward code. -/
theorem fwd_not_bwd (c : Nat) (h : isForwardCode c = true) : isBackwardCode c = false := by
  simp only [isForwardCode, Bool.or_eq_true, decide_eq_true_eq] at h
  rcases h with ((rfl | rfl) | rfl) | rfl <;> rfl

/-- Running the ISR over a sample sequence moves `encoderPos` by the
number of forward transition codes minus the number of backward ones. -/
theorem runEncoder_counts (xs : List (Bool × Bool)) : ∀ s : EncoderState,
    (runEncoder s xs).encoderPos =
      s.encoderPos + ((transitionCodes s.lastEncoded xs).countP isForwardCode : Int)
        - ((transitionCodes s.lastEncoded xs).countP isBackwardCode : Int) := by
  induction xs with
  | nil => intro s; simp [runEncoder, transitionCodes]
  | cons x t ih =>
    intro s
    obtain ⟨a, b⟩ := x
    have hrun : runEncoder s ((a, b) :: t) = runEncoder (updateEncoder s a b) t := rfl
    have hlast : (updateEncoder s a b).lastEncoded = encode a b := rfl
    have hcodes : transitionCodes s.lastEncoded ((a, b) :: t) =
        (s.lastEncoded * 4 + encode a b) :: transitionCodes (encode a b) t := rfl
    rw [hrun, ih (updateEncoder s a b), hlast, hcodes]
    rw [List.countP_cons, List.countP_cons]
    have hstep : (updateEncoder s a b).encoderPos =
        if isForwardCode (s.lastEncoded * 4 + encode a b) then s.encoderPos + 1
        else if isBackwardCode (s.lastEncoded * 4 + encode a b) then s.encoderPos - 1
        else s.encoderPos := rfl
    rw [hstep]
    by_cases hf : isForwardCode (s.lastEncoded * 4 + encode a b) = true
    · have hb := fwd_not_bwd _ hf
      simp [hf, hb]
      ring
    · by_cases hb : isBackwardCode (s.lastEncoded * 4 + encode a b) = true
      · simp [hf, hb]
        ring
      · simp [hf, hb]

/-- C3: the accumulated encoder delta equals forward minus backward
steps among the valid Gray-code transitions encountered; each valid
transition moves the counter by exactly plus or minus one, every other
4-bit code leaves it unchanged, and a sequence producing only invalid
codes yields delta 0. -/
theorem c3_decoder_delta (s : EncoderState) (xs : List (Bool × Bool)) (a b : Bool) :
    ((updateEncoder s a b).encoderPos =
      s.encoderPos +
        (if isForwardCode (s.lastEncoded * 4 + encode a b) then 1
         else if isBackwardCode (s.lastEncoded * 4 + encode a b) then (-1 : Int) else 0))
    ∧ ((runEncoder s xs).encoderPos =
        s.encoderPos + ((transitionCodes s.lastEncoded xs).countP isForwardCode : Int)
          - ((transitionCodes s.lastEncoded xs).countP isBackwardCode : Int))
    ∧ ((transitionCodes s.lastEncoded xs).all
          (fun c => !isForwardCode c && !isBackwardCode c) = true →
        (runEncoder { encoderPos := 0, lastEncoded := s.lastEncoded } xs).encoderPos = 0) := by
  refine ⟨?_, runEncoder_counts xs s, ?_⟩
  · have hstep : (updateEncoder s a b).encoderPos =
        if isForwardCode (s.lastEncoded * 4 + encode a b) then s.encoderPos + 1
        else if isBackwardCode (s.lastEncoded * 4 + encode a b) then s.encoderPos - 1
        else s.encoderPos := rfl
    rw [hstep]
    split_ifs <;> omega
  · intro hall
    have h := runEncoder_counts xs { encoderPos := 0, lastEncoded := s.lastEncoded }
    have hf : (transitionCodes s.lastEncoded xs).countP isForwardCode = 0 := by
      rw [List.countP_eq_zero]
      intro c hc
      have := List.all_eq_true.mp hall c hc
      simp only [Bool.and_eq_true, Bool.not_eq_true'] at this
      simp [this.1]
    have hb : (transitionCodes s.lastEncoded xs).countP isBackwardCode = 0 := by
      rw [List.countP_eq_zero]
      intro c hc
      have := List.all_eq_true.mp hall c hc
      simp only [Bool.and_eq_true, Bool.not_eq_true'] at this
      simp [this.2]
    rw [h, hf, hb]
    simp

/-- Witness for C3 at a concrete all-invalid sample sequence. -/
theorem c3_decoder_delta_witness :
    (runEncoder { encoderPos := 0, lastEncoded := 0 } [(false, false)]).encoderPos = 0 :=
  (c3_decoder_delta { encoderPos := 0, lastEncoded := 0 } [(false, false)] false false).2.2
    (by decide)

/-- C1 (amended): the updated index lies in `[0, listLength)` whenever
`current + delta + listLength` is nonnegative — in particular for
every delta of magnitude at most `listLength` from an in-range index;
for more negative drained deltas the truncated C `%` yields a negative
index, so the bound does not hold for deltas of arbitrary magnitude. -/
theorem c1_index_in_range (current d listLength : Int) (hpos : 0 < listLength)
    (hnn : 0 ≤ current + d + listLength) :
    0 ≤ updateSelection current d listLength ∧
      updateSelection current d listLength < listLength := by
  unfold updateSelection
  exact ⟨Int.tmod_nonneg _ hnn, Int.tmod_lt_of_pos _ hpos⟩

/-- Witness for C1 at a concrete in-range rotation. -/
theorem c1_index_in_range_witness :
    0 ≤ updateSelection 2 (-3) 4 ∧ updateSelection 2 (-3) 4 < 4 :=
  c1_index_in_range 2 (-3) 4 (by decide) (by decide)

/-- C1 counterexample: a drained delta of -9 in the name phase (nine
backward quadrature steps accumulated between ticks) drives the stored
index to -1, outside `[0, 4)`: the C `%` on `int` truncates toward
zero, so `(0 + -9 + 4) % 4 = -1`. -/
theorem c1_counterexample :
    ((loopTick initState
        { encBefore :=
            [(false, true), (true, true), (true, false), (false, false),
             (false, true), (true, true), (true, false), (false, false),
             (false, true)],
          buttonLow := false, pollMillis := 0, encAfterDrain := [],
          dateStr := "", confirmStartMillis := 0, dwellMillis := [] }).map
      fun r => r.1.selectedNameIndex) = some (-1) ∧ ¬ (0 ≤ (-1 : Int)) := by
  refine ⟨by decide, by decide⟩

/-- C4 (amended): the poll returns a press event iff the raw level is
pressed and STRICTLY more than 200 ms (modulo 2^32) have elapsed since
the last accepted press — a second press exactly 200 ms after the
first is rejected, and accepted only from 201 ms; on acceptance the
timestamp becomes `now`, otherwise the state is unchanged. -/
theorem c4_debounce (rawLow : Bool) (now last : Nat) :
    ((isButtonPressed rawLow now last).1 = true ↔
      rawLow = true ∧ 200 < u32sub now last)
    ∧ (isButtonPressed rawLow now last).2 =
        (if (isButtonPressed rawLow now last).1 then now else last) := by
  cases rawLow <;> simp only [isButtonPressed] <;> split_ifs <;> simp_all

/-- Witness for C4 at a concrete accepted press. -/
theorem c4_debounce_witness :
    (isButtonPressed true 1000 0).1 = true :=
  (c4_debounce true 1000 0).1.mpr ⟨rfl, by decide⟩

/-- C4 counterexample: a press at t = 1000 is accepted; a second press
at exactly t = 1200 (200 ms later) is rejected — the source condition
is `currentMillis - lastButtonPressTime > 200`, not a 200 ms-inclusive
comparison — while a press at t = 1201 is accepted. -/
theorem c4_counterexample :
    isButtonPressed true 1000 0 = (true, 1000) ∧
      (isButtonPressed true 1200 1000).1 = false ∧
      (isButtonPressed true 1201 1000).1 = true := by
  refine ⟨by decide, by decide, by decide⟩

/-- C7: the message handed to the Telegram sink is exactly the
four-line layout "Name: …", "Class: …", "Mood: …", "Date: …", each
label resolved from its option list at the given index, joined by
newlines in that order: the source-level concatenation equals the
spec-level list of four lines joined by newlines. -/
theorem c7_message_layout (i j k : Int) (dateStr : String) :
    submissionMessage i j k dateStr = specSubmissionMessage i j k dateStr := by
  unfold submissionMessage specSubmissionMessage
  have h : ∀ a b c e : String,
      String.intercalate "\n" [a, b, c, e] = a ++ "\n" ++ b ++ "\n" ++ c ++ "\n" ++ e :=
    fun a b c e => rfl
  rw [h]
  simp only [String.append_assoc]
  rw [← String.append_assoc "\n" "Class: ", ← String.append_assoc "\n" "Mood: ",
    ← String.append_assoc "\n" "Date: "]
  rfl

/-- C8 (amended): in the shipped configuration the mood-message list
and the mood list do have equal length (both 5); however `setup()`
performs no assertion on them — it reaches the interaction loop
independently of the two lengths, so a mismatch would not be detected
at startup. -/
theorem c8_mood_lists :
    moodMessages.length = moods.length ∧
      ∀ a b : Nat, setupProceeds true a b = true :=
  ⟨rfl, fun _ _ => rfl⟩

/-- C8 counterexample: with a hypothetical mismatched configuration
(5 moods, 4 messages) the modelled `setup()` still proceeds into the
interaction loop — the source contains no length assertion, so a
mismatch is not fatal at startup and the core does not refuse to
proceed. -/
theorem c8_counterexample : setupProceeds true 5 4 = true := rfl

/-- Projection helper: the rotation switch never changes the FSM state. -/
theorem rotationStep_currentState (pos : Int) (s : LoopState) :
    (rotationStep pos s).currentState = s.currentState := by
  unfold rotationStep
  split
  · split <;> rfl
  · rfl

/-- Projection helper: the rotation switch never touches the drained
encoder cell. -/
theorem rotationStep_encoderPos (pos : Int) (s : LoopState) :
    (rotationStep pos s).encoderPos = s.encoderPos := by
  unfold rotationStep
  split
  · split <;> rfl
  · rfl

/-- Projection helper: accumulating ISR samples changes no field other
than the encoder cell. -/
theorem applySamples_currentState (s : LoopState) (xs : List (Bool × Bool)) :
    (applySamples s xs).currentState = s.currentState := rfl

/-- After the core part of a tick, the FSM state is either unchanged
or advanced by one button press. -/
theorem loopTickCore_currentState (s : LoopState) (inp : TickInput) :
    (loopTickCore s inp).1.currentState = s.currentState ∨
    (loopTickCore s inp).1.currentState = pressTarget s.currentState := by
  simp only [loopTickCore]
  split_ifs <;>
    simp [pressStep, rotationStep_currentState, applySamples_currentState]

/-- After the core part of a tick, the drained encoder cell is zero:
nothing between the drain and the end of the core re-adds to it. -/
theorem loopTickCore_encoderPos (s : LoopState) (inp : TickInput) :
    (loopTickCore s inp).1.encoderPos = 0 := by
  simp only [loopTickCore]
  split_ifs <;> simp [pressStep, rotationStep_encoderPos]

/-- C9 (amended): the secondary display is redrawn on every tick, in
every phase, and the drawing is a function of the current FSM state
and mood index alone — idle animation during name/class selection, the
mood icon during mood selection, the confirmation message during the
confirmation dwell, a placeholder in the transient submission state —
with no change detection against the previous tick (only the LCD has
change-only semantics). -/
theorem c9_oled_every_tick (s : LoopState) (inp : TickInput) :
    (loopTickCore s inp).2.oledDraws =
      [updateOLEDAction (loopTickCore s inp).1.currentState
        (loopTickCore s inp).1.selectedMoodIndex]
    ∧ (loopTickCore s inp).2.oledDraws ≠ [] := by
  constructor
  · simp only [loopTickCore]
    split_ifs <;> rfl
  · simp only [loopTickCore]
    split_ifs <;> simp

/-- C9 counterexample: a tick in the mood phase whose state is a
fixpoint — phase and mood index identical to the previously rendered
tick, no input — still issues a full mood-icon redraw to the OLED
(while the LCD change detection correctly skips its redraw), refuting
change-only semantics for the mood-icon phase. -/
theorem c9_counterexample :
    loopTick
      { currentState := DeviceState.STATE_MOOD_SELECTION,
        selectedNameIndex := 0, selectedClassIndex := 0, selectedMoodIndex := 0,
        encoderPos := 0, lastEncoded := 0, lastButtonPressTime := 0,
        prevState := some DeviceState.STATE_MOOD_SELECTION,
        prevNameIndex := 0, prevClassIndex := 0, prevMoodIndex := 0 }
      { encBefore := [], buttonLow := false, pollMillis := 0, encAfterDrain := [],
        dateStr := "", confirmStartMillis := 0, dwellMillis := [] } =
    some
      ({ currentState := DeviceState.STATE_MOOD_SELECTION,
         selectedNameIndex := 0, selectedClassIndex := 0, selectedMoodIndex := 0,
         encoderPos := 0, lastEncoded := 0, lastButtonPressTime := 0,
         prevState := some DeviceState.STATE_MOOD_SELECTION,
         prevNameIndex := 0, prevClassIndex := 0, prevMoodIndex := 0 },
       { lcdDraws := [], oledDraws := [OledAction.moodIcon 0], telegramSent := none })
    ∧ ([OledAction.moodIcon 0] : List OledAction) ≠ [] := by
  refine ⟨by decide, by decide⟩

/-- The dwell loop only exits at a reading at least 3000 ms past the
entry time. -/
theorem dwellWait_ge (start : Nat) : ∀ (ts : List Nat) (t : Nat),
    dwellWait start ts = some t → 3000 ≤ u32sub t start := by
  intro ts
  induction ts with
  | nil => intro t h; simp [dwellWait] at h
  | cons a l ih =>
    intro t h
    unfold dwellWait at h
    by_cases hc : u32sub a start < 3000
    · rw [if_pos hc] at h
      exact ih t h
    · rw [if_neg hc] at h
      injection h with h2
      subst h2
      omega

/-- C6: the confirmation phase hands back to name selection only at a
dwell-loop reading at least 3000 ms past the entry reading, never
earlier; and when the tick that ran the submission block completes,
the resulting state is name selection with all three indices reset
to 0 (a tick whose dwell readings never reach the deadline does not
complete at all). -/
theorem c6_confirmation_dwell :
    (∀ (start : Nat) (ts : List Nat) (t : Nat),
      dwellWait start ts = some t → 3000 ≤ u32sub t start)
    ∧ (∀ (s : LoopState) (inp : TickInput),
        (loopTickCore s inp).1.currentState = DeviceState.STATE_SUBMISSION →
        loopTick s inp = none ∨
          ((loopTick s inp).map fun r =>
            (r.1.currentState, r.1.selectedNameIndex, r.1.selectedClassIndex,
              r.1.selectedMoodIndex)) =
            some (DeviceState.STATE_NAME_SELECTION, 0, 0, 0)) := by
  refine ⟨dwellWait_ge, ?_⟩
  intro s inp hm
  simp only [loopTick, hm, if_true]
  cases hdw : dwellWait inp.confirmStartMillis inp.dwellMillis with
  | none => exact Or.inl rfl
  | some t => exact Or.inr rfl

/-- Witness for C6: a dwell that enters at 0 and exits at the reading
3000, and a concrete submitting tick that completes with the reset
applied. -/
theorem c6_confirmation_dwell_witness :
    3000 ≤ u32sub 3000 0
    ∧ (loopTick
        { currentState := DeviceState.STATE_SUBMISSION,
          selectedNameIndex := 1, selectedClassIndex := 1, selectedMoodIndex := 1,
          encoderPos := 0, lastEncoded := 0, lastButtonPressTime := 0,
          prevState := some DeviceState.STATE_SUBMISSION,
          prevNameIndex := 1, prevClassIndex := 1, prevMoodIndex := 1 }
        { encBefore := [], buttonLow := false, pollMillis := 0, encAfterDrain := [],
          dateStr := "02/02/2025", confirmStartMillis := 0, dwellMillis := [3000] } = none
      ∨ ((loopTick
        { currentState := DeviceState.STATE_SUBMISSION,
          selectedNameIndex := 1, selectedClassIndex := 1, selectedMoodIndex := 1,
          encoderPos := 0, lastEncoded := 0, lastButtonPressTime := 0,
          prevState := some DeviceState.STATE_SUBMISSION,
          prevNameIndex := 1, prevClassIndex := 1, prevMoodIndex := 1 }
        { encBefore := [], buttonLow := false, pollMillis := 0, encAfterDrain := [],
          dateStr := "02/02/2025", confirmStartMillis := 0, dwellMillis := [3000] }).map
          fun r => (r.1.currentState, r.1.selectedNameIndex, r.1.selectedClassIndex,
            r.1.selectedMoodIndex)) =
          some (DeviceState.STATE_NAME_SELECTION, 0, 0, 0)) :=
  ⟨c6_confirmation_dwell.1 0 [3000] 3000 (by decide),
   c6_confirmation_dwell.2 _ _ (by decide)⟩

/-- C2 (amended): a rotation delta drained while the FSM state is
submission or confirmation is discarded by the rotation switch, and a
button press in those states leaves the state unchanged; however,
rotation events delivered during the submission/confirmation block
accumulate in the shared encoder counter — which the reset does not
clear — so they are drained and applied to the name selection on the
following tick: the state after the dwell-and-reset is not independent
of rotation delivered during the dwell. -/
theorem c2_inputs_during_confirmation :
    (∀ (pos : Int) (s : LoopState),
      (s.currentState = DeviceState.STATE_SUBMISSION ∨
        s.currentState = DeviceState.STATE_CONFIRMATION) →
      rotationStep pos s = s)
    ∧ (∀ s : LoopState,
        (s.currentState = DeviceState.STATE_SUBMISSION ∨
          s.currentState = DeviceState.STATE_CONFIRMATION) →
        pressStep s = s)
    ∧ (∀ (s : LoopState) (inp : TickInput),
        (loopTickCore s inp).1.currentState = DeviceState.STATE_SUBMISSION →
        loopTick s inp = none ∨
          ((loopTick s inp).map fun r => r.1.encoderPos) =
            some ((runEncoder
              { encoderPos := 0, lastEncoded := (loopTickCore s inp).1.lastEncoded }
              inp.encAfterDrain).encoderPos)) := by
  refine ⟨?_, ?_, ?_⟩
  · intro pos s h
    unfold rotationStep
    rcases h with h | h <;> rw [h] <;> split <;> rfl
  · intro s h
    have ht : pressTarget s.currentState = s.currentState := by
      rcases h with h | h <;> rw [h] <;> rfl
    show { s with currentState := pressTarget s.currentState } = s
    rw [ht]
  · intro s inp hm
    simp only [loopTick, hm, if_true]
    cases hdw : dwellWait inp.confirmStartMillis inp.dwellMillis with
    | none => exact Or.inl rfl
    | some t =>
      refine Or.inr ?_
      simp only [Option.map_some]
      have hz := loopTickCore_encoderPos s inp
      simp [applySamples, hz]

/-- Witness for C2: a rotation discarded in the confirmation state,
and a concrete submitting tick during whose dwell one forward step
arrives and survives into the post-reset encoder counter. -/
theorem c2_inputs_during_confirmation_witness :
    rotationStep 5
      { currentState := DeviceState.STATE_CONFIRMATION,
        selectedNameIndex := 0, selectedClassIndex := 0, selectedMoodIndex := 0,
        encoderPos := 0, lastEncoded := 0, lastButtonPressTime := 0,
        prevState := none, prevNameIndex := 0, prevClassIndex := 0, prevMoodIndex := 0 } =
      { currentState := DeviceState.STATE_CONFIRMATION,
        selectedNameIndex := 0, selectedClassIndex := 0, selectedMoodIndex := 0,
        encoderPos := 0, lastEncoded := 0, lastButtonPressTime := 0,
        prevState := none, prevNameIndex := 0, prevClassIndex := 0, prevMoodIndex := 0 }
    ∧ (loopTick
        { currentState := DeviceState.STATE_SUBMISSION,
          selectedNameIndex := 0, selectedClassIndex := 0, selectedMoodIndex := 0,
          encoderPos := 0, lastEncoded := 0, lastButtonPressTime := 0,
          prevState := some DeviceState.STATE_SUBMISSION,
          prevNameIndex := 0, prevClassIndex := 0, prevMoodIndex := 0 }
        { encBefore := [], buttonLow := false, pollMillis := 0,
          encAfterDrain := [(true, false)], dateStr := "", confirmStartMillis := 0,
          dwellMillis := [3000] } = none
      ∨ ((loopTick
        { currentState := DeviceState.STATE_SUBMISSION,
          selectedNameIndex := 0, selectedClassIndex := 0, selectedMoodIndex := 0,
          encoderPos := 0, lastEncoded := 0, lastButtonPressTime := 0,
          prevState := some DeviceState.STATE_SUBMISSION,
          prevNameIndex := 0, prevClassIndex := 0, prevMoodIndex := 0 }
        { encBefore := [], buttonLow := false, pollMillis := 0,
          encAfterDrain := [(true, false)], dateStr := "", confirmStartMillis := 0,
          dwellMillis := [3000] }).map fun r => r.1.encoderPos) =
        some ((runEncoder
          { encoderPos := 0,
            lastEncoded := (loopTickCore
              { currentState := DeviceState.STATE_SUBMISSION,
                selectedNameIndex := 0, selectedClassIndex := 0, selectedMoodIndex := 0,
                encoderPos := 0, lastEncoded := 0, lastButtonPressTime := 0,
                prevState := some DeviceState.STATE_SUBMISSION,
                prevNameIndex := 0, prevClassIndex := 0, prevMoodIndex := 0 }
              { encBefore := [], buttonLow := false, pollMillis := 0,
                encAfterDrain := [(true, false)], dateStr := "", confirmStartMillis := 0,
                dwellMillis := [3000] }).1.lastEncoded }
          [(true, false)]).encoderPos)) :=
  ⟨c2_inputs_during_confirmation.1 5 _ (Or.inr rfl),
   c2_inputs_during_confirmation.2.2 _ _ (by decide)⟩

/-- C2 counterexample: from the mood phase with all indices 0, a tick
whose accepted press submits and during whose confirmation dwell one
valid forward quadrature step arrives, followed by one input-free
tick, ends with `selectedNameIndex = 1`; the identical run without the
dwell-time rotation ends with `selectedNameIndex = 0`. The state after
the dwell-and-reset therefore depends on rotation delivered while the
phase was Submitting/Confirming. -/
theorem c2_counterexample :
    ((runTicks
        { currentState := DeviceState.STATE_MOOD_SELECTION,
          selectedNameIndex := 0, selectedClassIndex := 0, selectedMoodIndex := 0,
          encoderPos := 0, lastEncoded := 0, lastButtonPressTime := 0,
          prevState := some DeviceState.STATE_MOOD_SELECTION,
          prevNameIndex := 0, prevClassIndex := 0, prevMoodIndex := 0 }
        [{ encBefore := [], buttonLow := true, pollMillis := 1000,
           encAfterDrain := [(true, false)], dateStr := "01/01/2025",
           confirmStartMillis := 1000, dwellMillis := [5000] },
         { encBefore := [], buttonLow := false, pollMillis := 6000,
           encAfterDrain := [], dateStr := "", confirmStartMillis := 0,
           dwellMillis := [] }]).map
      fun r => r.selectedNameIndex) = some 1
    ∧ ((runTicks
        { currentState := DeviceState.STATE_MOOD_SELECTION,
          selectedNameIndex := 0, selectedClassIndex := 0, selectedMoodIndex := 0,
          encoderPos := 0, lastEncoded := 0, lastButtonPressTime := 0,
          prevState := some DeviceState.STATE_MOOD_SELECTION,
          prevNameIndex := 0, prevClassIndex := 0, prevMoodIndex := 0 }
        [{ encBefore := [], buttonLow := true, pollMillis := 1000,
           encAfterDrain := [], dateStr := "01/01/2025",
           confirmStartMillis := 1000, dwellMillis := [5000] },
         { encBefore := [], buttonLow := false, pollMillis := 6000,
           encAfterDrain := [], dateStr := "", confirmStartMillis := 0,
           dwellMillis := [] }]).map
      fun r => r.selectedNameIndex) = some 0 := by
  refine ⟨by decide, by decide⟩

/-- C5: from the initial name-selection state with no rotation, three
accepted button presses (spaced beyond the debounce window) advance
the phase to class selection, then mood selection, and the tick of the
third press reaches the submission state within that same tick; in
that tick the submission pipeline is invoked (the four-line message is
handed to the Telegram sink), the confirmation screen is rendered (the
phase has become confirmation), and after the dwell the tick ends back
in name selection. -/
theorem c5_three_presses :
    ((loopTick initState
        { encBefore := [], buttonLow := true, pollMillis := 1000, encAfterDrain := [],
          dateStr := "", confirmStartMillis := 0, dwellMillis := [] }).map
      fun r1 => r1.1.currentState) = some DeviceState.STATE_CLASS_SELECTION
    ∧ ((loopTick initState
        { encBefore := [], buttonLow := true, pollMillis := 1000, encAfterDrain := [],
          dateStr := "", confirmStartMillis := 0, dwellMillis := [] }).bind
      fun r1 => (loopTick r1.1
        { encBefore := [], buttonLow := true, pollMillis := 2000, encAfterDrain := [],
          dateStr := "", confirmStartMillis := 0, dwellMillis := [] }).map
      fun r2 => r2.1.currentState) = some DeviceState.STATE_MOOD_SELECTION
    ∧ ((loopTick initState
        { encBefore := [], buttonLow := true, pollMillis := 1000, encAfterDrain := [],
          dateStr := "", confirmStartMillis := 0, dwellMillis := [] }).bind
      fun r1 => (loopTick r1.1
        { encBefore := [], buttonLow := true, pollMillis := 2000, encAfterDrain := [],
          dateStr := "", confirmStartMillis := 0, dwellMillis := [] }).map
      fun r2 => (loopTickCore r2.1
        { encBefore := [], buttonLow := true, pollMillis := 3000, encAfterDrain := [],
          dateStr := "01/01/2025", confirmStartMillis := 3100,
          dwellMillis := [3100, 6100] }).1.currentState) =
        some DeviceState.STATE_SUBMISSION
    ∧ ((loopTick initState
        { encBefore := [], buttonLow := true, pollMillis := 1000, encAfterDrain := [],
          dateStr := "", confirmStartMillis := 0, dwellMillis := [] }).bind
      fun r1 => (loopTick r1.1
        { encBefore := [], buttonLow := true, pollMillis := 2000, encAfterDrain := [],
          dateStr := "", confirmStartMillis := 0, dwellMillis := [] }).bind
      fun r2 => (loopTick r2.1
        { encBefore := [], buttonLow := true, pollMillis := 3000, encAfterDrain := [],
          dateStr := "01/01/2025", confirmStartMillis := 3100,
          dwellMillis := [3100, 6100] }).map
      fun r3 => (r3.2.telegramSent, r3.2.lcdDraws, r3.1.currentState)) =
        some (some "Name: Tan Jetyu\nClass: Class 3\nMood: Happy\nDate: 01/01/2025",
          [LcdView.blank, LcdView.confirmationScreen],
          DeviceState.STATE_NAME_SELECTION) := by
  refine ⟨by decide, by decide, by decide, by decide⟩

/-- A completed tick that starts in a selecting phase ends in a
selecting phase: the submission and confirmation states are entered
and fully exited inside the iteration. -/
theorem tick_preserves_selecting (s : LoopState) (inp : TickInput)
    (r : LoopState × TickEffects) (hsel : isSelectingPhase s.currentState = true)
    (h : loopTick s inp = some r) : isSelectingPhase r.1.currentState = true := by
  by_cases hm : (loopTickCore s inp).1.currentState = DeviceState.STATE_SUBMISSION
  · simp only [loopTick, hm, if_true] at h
    cases hdw : dwellWait inp.confirmStartMillis inp.dwellMillis with
    | none => rw [hdw] at h; exact absurd h (by simp)
    | some t =>
      rw [hdw] at h
      injection h with h2
      rw [← h2]
      rfl
  · simp only [loopTick, if_neg hm] at h
    injection h with h2
    rw [← h2]
    show isSelectingPhase (applySamples (loopTickCore s inp).1 inp.encAfterDrain).currentState = true
    rw [applySamples_currentState]
    rcases loopTickCore_currentState s inp with hc | hc
    · rw [hc]; exact hsel
    · rw [hc]
      cases hcs : s.currentState <;> rw [hcs] at hc hsel <;>
        first
          | rfl
          | exact absurd (hc.trans rfl) hm
          | exact absurd hsel (by decide)

/-- Preservation along any sequence of completed iterations. -/
theorem runTicks_preserves_selecting (inps : List TickInput) :
    ∀ (s s' : LoopState), isSelectingPhase s.currentState = true →
      runTicks s inps = some s' → isSelectingPhase s'.currentState = true := by
  induction inps with
  | nil =>
    intro s s' h hr
    simp only [runTicks] at hr
    injection hr with h2
    rw [← h2]
    exact h
  | cons i t ih =>
    intro s s' h hr
    unfold runTicks at hr
    cases htk : loopTick s i with
    | none => rw [htk] at hr; exact absurd hr (by simp)
    | some r =>
      rw [htk] at hr
      exact ih r.1 s' (tick_preserves_selecting s i r h htk) hr

/-- C10: at every iteration boundary the FSM state is one of the three
selecting phases; the initial state is name selection, and any run of
completed `loop()` iterations from it ends each iteration in a
selecting phase — the submission and confirmation states (the whole
3000 ms dwell and the reset included) are entered and exited inside a
single iteration and never persist across a boundary. -/
theorem c10_selecting_between_ticks :
    isSelectingPhase initState.currentState = true
    ∧ ∀ (inps : List TickInput) (s' : LoopState),
        runTicks initState inps = some s' →
        isSelectingPhase s'.currentState = true :=
  ⟨rfl, fun inps s' h =>
    runTicks_preserves_selecting inps initState s' rfl h⟩

/-- Witness for C10 at a concrete one-tick run. -/
theorem c10_selecting_between_ticks_witness :
    isSelectingPhase
      ({ currentState := DeviceState.STATE_NAME_SELECTION,
         selectedNameIndex := 0, selectedClassIndex := 0, selectedMoodIndex := 0,
         encoderPos := 0, lastEncoded := 0, lastButtonPressTime := 0,
         prevState := some DeviceState.STATE_NAME_SELECTION,
         prevNameIndex := 0, prevClassIndex := 0,
         prevMoodIndex := 0 } : LoopState).currentState = true :=
  c10_selecting_between_ticks.2
    [{ encBefore := [], buttonLow := false, pollMillis := 0, encAfterDrain := [],
       dateStr := "", confirmStartMillis := 0, dwellMillis := [] }]
    { currentState := DeviceState.STATE_NAME_SELECTION,
      selectedNameIndex := 0, selectedClassIndex := 0, selectedMoodIndex := 0,
      encoderPos := 0, lastEncoded := 0, lastButtonPressTime := 0,
      prevState := some DeviceState.STATE_NAME_SELECTION,
      prevNameIndex := 0, prevClassIndex := 0, prevMoodIndex := 0 }
    (by decide)

end MentalHealthRecoder
